import Mathlib

/-!
Verification of the logging-template module (`log_template.py`): a shallow
embedding of its level-resolution, handler-initialization, name-resolution
and formatting logic, together with theorems settling the specified
properties.  Python machine state (the process-wide logger registry) is
modelled explicitly as a `LogState`; Python exceptions are modelled with
`Except`; Python's `str`/`tuple` equality is modelled on a small value type.
-/

namespace LogTemplate

/-- ASCII uppercasing, modelling `str.upper()` (all level names are ASCII). -/
def pyUpper (s : String) : String := ⟨s.data.map Char.toUpper⟩

/-- Model of `str.startswith` (model of Python string prefix test). -/
def strStartsWithPy (s pat : String) : Bool := List.isPrefixOf pat.data s.data

/-- Model of `str.endswith` (model of Python string suffix test). -/
def strEndsWithPy (s pat : String) : Bool := List.isSuffixOf pat.data s.data

/-- A fragment of Python's value universe, enough to express the comparison
`fname == ("__init__", "__main__")` from `_get_main_module_name`. -/
inductive PyVal where
  | str (s : String)
  | pair (a b : PyVal)
deriving DecidableEq

/-- Python `==` on this fragment: values of different types compare unequal
(`str.__eq__(tuple)` yields `NotImplemented`, and the fallback is `False`). -/
def pyEq : PyVal → PyVal → Bool
  | .str a, .str b => a == b
  | .pair a b, .pair c d => pyEq a c && pyEq b d
  | _, _ => false

/-- The level-name table of the `logging` module
(`logging.getLevelNamesMapping()` / `logging._nameToLevel`). -/
def nameToLevel (s : String) : Option Nat :=
  if s = "CRITICAL" then some 50
  else if s = "FATAL" then some 50
  else if s = "ERROR" then some 40
  else if s = "WARN" then some 30
  else if s = "WARNING" then some 30
  else if s = "INFO" then some 20
  else if s = "DEBUG" then some 10
  else if s = "NOTSET" then some 0
  else none

/-- Result of `logging.getLevelName` applied to a string: an `int` level for a
recognized name, else the string `"Level %s"`. -/
inductive PyLevel where
  | num (n : Nat)
  | str (s : String)
deriving DecidableEq

/-- Model of `logging.getLevelName` on a string argument. -/
def getLevelName (s : String) : PyLevel :=
  match nameToLevel s with
  | some n => .num n
  | none => .str ("Level " ++ s)

/-- Model of `logging._checkLevel`: an `int` passes through; a string must be a
recognized level name, otherwise `ValueError` is raised. -/
def checkLevel : PyLevel → Except Unit Nat
  | .num n => .ok n
  | .str s =>
    match nameToLevel s with
    | some n => .ok n
    | none => .error ()

/-- An output sink attached to a logger: `StreamHandler(sys.stdout)` or
`TimedRotatingFileHandler`, each carrying its formatter's name mode. -/
inductive Handler where
  | console (namemode : String)
  | timedRotatingFile (fname : String) (whenSpec : String) (backupCount : Nat)
      (suffix : String) (namemode : String)
deriving DecidableEq

/-- The process-wide state of the `logging` registry: each logger name has an
own level (`0` = `NOTSET`) and a handler list; `warnings` records, in order,
the warning records actually emitted (logger name, message). -/
structure LogState where
  level : String → Nat
  handlers : String → List Handler
  warnings : List (String × String)

/-- The registry at interpreter start: no levels set, no handlers anywhere. -/
def initState : LogState :=
  { level := fun _ => 0, handlers := fun _ => [], warnings := [] }

/-- The dotted proper ancestors of a logger name, nearest first, excluding the
name itself and excluding the root `""`. -/
def properAncestors (name : String) : List String :=
  let segs := name.data.splitOn '.'
  ((List.range (segs.length - 1)).reverse).map
    (fun k => ⟨List.intercalate ['.'] (segs.take (k + 1))⟩)

/-- The chain walked by `Logger.hasHandlers`/`getEffectiveLevel`: the logger
itself, then its dotted ancestors, ending at the root logger `""`. -/
def ancestorsChain (name : String) : List String :=
  if name = "" then [""] else name :: (properAncestors name ++ [""])

/-- Model of `Logger.getEffectiveLevel`: the first nonzero own level on the chain from
the logger to the root, else `NOTSET` (0). -/
def effectiveLevel (st : LogState) (name : String) : Nat :=
  match (ancestorsChain name).find? (fun n => st.level n != 0) with
  | some n => st.level n
  | none => 0

/-- Model of `Logger.warning(msg)`: the record is emitted iff `WARNING` (30) is at or
above the logger's effective level. -/
def warn (st : LogState) (log msg : String) : LogState :=
  if effectiveLevel st log ≤ 30 then
    { st with warnings := st.warnings ++ [(log, msg)] }
  else st

/-- Model of `Logger.setLevel` with a known-good numeric level. -/
def setLevelNat (st : LogState) (log : String) (n : Nat) : LogState :=
  { st with level := fun x => if x = log then n else st.level x }

/-- Model of `Logger.setLevel` on an arbitrary value: `_checkLevel` may raise
`ValueError`. -/
def pySetLevel (st : LogState) (log : String) (lvl : PyLevel) : Except Unit LogState :=
  match checkLevel lvl with
  | .ok n => .ok (setLevelNat st log n)
  | .error e => .error e

/-- Model of `SYSTEM_LOG_LEVEL = logging.WARNING`. -/
def SYSTEM_LOG_LEVEL : Nat := 30

/-- Model of `DEFAULT_LOG_LEVEL = os.getenv('DEFAULT_LOG_LEVEL', 'INFO').upper()`,
as a function of the process environment. -/
def DEFAULT_LOG_LEVEL (env : String → Option String) : String :=
  pyUpper ((env "DEFAULT_LOG_LEVEL").getD "INFO")

/-- Model of `set_system_log_level(log)`. -/
def set_system_log_level (st : LogState) (log : String) : LogState :=
  setLevelNat st log SYSTEM_LOG_LEVEL

/-- Model of `set_default_log_level(log)`; `dll` is the module constant
`DEFAULT_LOG_LEVEL`. -/
def set_default_log_level (dll : String) (st : LogState) (log : String) :
    Except Unit LogState :=
  if (nameToLevel dll).isSome then
    pySetLevel st log (getLevelName dll)
  else
    .ok (warn (set_system_log_level st log) log
      ("Unknown log level \"" ++ dll ++ "\""))

/-- Model of `set_log_level(log, lvl_str)`; the `try` block catches the `ValueError`
from `log.setLevel` and falls back to `set_default_log_level`, then emits a
second warning with the uppercased requested name. -/
def set_log_level (dll : String) (st : LogState) (log : String) (lvl_str : String) :
    Except Unit LogState :=
  let lvl := getLevelName (pyUpper lvl_str)
  match pySetLevel st log lvl with
  | .ok st1 => .ok st1
  | .error _ =>
    match set_default_log_level dll st log with
    | .ok st1 => .ok (warn st1 log ("Unknown log level \"" ++ pyUpper lvl_str ++ "\""))
    | .error e => .error e

/-- Model of `Logger.hasHandlers`: true iff some logger on the chain from this logger
to the root has a nonempty handler list (placeholders have none). -/
def hasHandlers (st : LogState) (name : String) : Bool :=
  (ancestorsChain name).any (fun n => !(st.handlers n).isEmpty)

/-- Model of `Logger.addHandler`. -/
def addHandler (st : LogState) (log : String) (h : Handler) : LogState :=
  { st with handlers := fun x => if x = log then st.handlers x ++ [h] else st.handlers x }

/-- Model of `get_console_handler(namemode)`. -/
def get_console_handler (namemode : String) : Handler := .console namemode

/-- Model of `get_file_handler(fname, namemode)`: a `TimedRotatingFileHandler` with
`when='midnight'`, `backupCount=30` and date suffix `"%Y%m%d"`. -/
def get_file_handler (fname namemode : String) : Handler :=
  .timedRotatingFile fname "midnight" 30 "%Y%m%d" namemode

/-- Model of `init_root_logger(root_name, logpath, namemode)`: set the root's own level
to `DEBUG` (10), attach the console sink, and attach the rotating file sink
when `logpath` is truthy (non-empty). -/
def init_root_logger (st : LogState) (root_name logpath namemode : String) : LogState :=
  let st1 := setLevelNat st root_name 10
  let st2 := addHandler st1 root_name (get_console_handler namemode)
  if logpath ≠ "" then addHandler st2 root_name (get_file_handler logpath namemode)
  else st2

/-- Model of `get_logger(name, lvl_str, lvl_env, root_logger, logpath, namemode)`;
`env` is the process environment and `dll` the module constant
`DEFAULT_LOG_LEVEL`.  `logging.getLogger(name)` itself is a pure lookup in
this model, so only the initialization guard and the level resolution appear. -/
def get_logger (env : String → Option String) (dll : String) (st : LogState)
    (name lvl_str : String) (lvl_env : Option String)
    (root_logger logpath namemode : String) : Except Unit LogState :=
  let st1 := if hasHandlers st name then st
             else init_root_logger st root_logger logpath namemode
  let lvl_str2 :=
    match lvl_env with
    | some v => if v = "" then lvl_str else (env v).getD dll
    | none => lvl_str
  set_log_level dll st1 name lvl_str2

/-- Model of `os.path.basename` (POSIX): the part after the last separator. -/
def pyBasename (p : String) : String := ⟨(p.data.splitOn '/').getLastD []⟩

/-- The `fname.endswith(ext)` / `fname[:-len(ext)]` step of
`_get_main_module_name` with `ext = ".py"`. -/
def stripPyExt (fname : String) : String :=
  if strEndsWithPy fname ".py" then ⟨fname.data.take (fname.data.length - 3)⟩
  else fname

/-- Model of `os.path.join` (POSIX) on two components. -/
def posixJoin2 (path b : String) : String :=
  if strStartsWithPy b "/" then b
  else if path = "" then path ++ b
  else if strEndsWithPy path "/" then path ++ b
  else path ++ "/" ++ b

/-- Model of `os.path.join` (POSIX) on three components. -/
def posixJoin3 (a b c : String) : String := posixJoin2 (posixJoin2 a b) c

/-- Model of `.replace('/', '.')`. -/
def slashesToDots (s : String) : String :=
  ⟨s.data.map (fun c => if c = '/' then '.' else c)⟩

/-- Model of `.strip('/.')`: drop leading and trailing characters drawn from
`{'/', '.'}`. -/
def pyStripDotsSlashes (s : String) : String :=
  List.asString
    (((s.data.dropWhile (fun c => c == '/' || c == '.')).reverse.dropWhile
      (fun c => c == '/' || c == '.')).reverse)

/-- The tuple literal `("__init__", "__main__")` of line 133. -/
def sentinelTuple : PyVal := .pair (.str "__init__") (.str "__main__")

/-- Model of `_get_main_module_name(module, prefix)`, as a function of the module's
`__package__` and `__file__` attributes. -/
def _get_main_module_name (package0 : Option String) (file : Option String)
    (pre : String) : String :=
  let package := package0.getD ""
  match file with
  | none => package
  | some mfname =>
    let fname := stripPyExt (pyBasename mfname)
    if pyEq (.str fname) sentinelTuple then package
    else pyStripDotsSlashes (slashesToDots (posixJoin3 pre package fname))

/-- The attributes of the module object resolved from the caller's frame. -/
structure PyModule where
  modName : String
  modPackage : Option String
  modFile : Option String

/-- Model of `get_module_name(prefix)`, as a function of the module resolved from the
caller's stack frame (`None` when `inspect.getmodule` finds nothing). -/
def get_module_name (module : Option PyModule) (pre : String) : String :=
  match module with
  | none => pre
  | some m =>
    if m.modName ≠ "__main__" then
      pyStripDotsSlashes (slashesToDots (posixJoin2 pre m.modName))
    else
      _get_main_module_name m.modPackage m.modFile pre

/-- Python `x[0]` on a string: its first character as a one-character string,
`IndexError` (modelled as `none`) when empty. -/
def pyHeadChar : List Char → Option (List Char)
  | [] => none
  | c :: _ => some [c]

/-- The comprehension `[x[0] for x in ...]`: left to right, the first
`IndexError` aborts (modelled as `none`). -/
def pyMapHead : List (List Char) → Option (List (List Char))
  | [] => some []
  | x :: xs =>
    match pyHeadChar x with
    | none => none
    | some hd =>
      match pyMapHead xs with
      | none => none
      | some tl => some (hd :: tl)

/-- Model of `CustomFormatter._get_name(record)`: the display name as a function of the
formatter's `name_mode` and the record's logger name (a list of characters);
`none` models the `IndexError` raised by `x[0]` on an empty segment. -/
def CustomFormatter_get_name (name_mode : String) (recordName : List Char) :
    Option (List Char) :=
  if name_mode = "leaf" then
    some ((recordName.splitOn '.').getLastD [])
  else if name_mode = "full" then
    some recordName
  else if name_mode = "short" then
    let names := recordName.splitOn '.'
    match pyMapHead names.dropLast with
    | none => none
    | some hs => some (List.intercalate ['.'] (hs ++ [names.getLastD []]))
  else
    some recordName

/-- Model of `kwargs.pop('namemode', 'file')` in `CustomFormatter.__init__`. -/
def CustomFormatter_initNameMode (namemodeArg : Option String) : String :=
  namemodeArg.getD "file"

/-- Model of `CustomFormatter.format_str`. -/
def format_str : String :=
  "%(asctime)s - \x7bname\x7d - %(levelname)s - %(message)s"

/-- Model of `CustomFormatter.FORMATS`: the template dictionary keyed by the five
standard numeric levels. -/
def FORMATS : List (Nat × String) :=
  [(10, format_str), (20, format_str), (30, format_str),
   (40, format_str), (50, format_str)]

/-- Substitution of every `\x7bname\x7d` replacement field, the effect of
`str.format(name=...)` on templates (such as `format_str` and its colorized
variants) whose only replacement field is `\x7bname\x7d`. -/
def substNamePlaceholder (nm : List Char) : List Char → List Char
  | '\x7b' :: 'n' :: 'a' :: 'm' :: 'e' :: '\x7d' :: rest =>
      nm ++ substNamePlaceholder nm rest
  | c :: rest => c :: substNamePlaceholder nm rest
  | [] => []

/-- Model of `log_fmt.format(name=name)`. -/
def pyFormatName (template : String) (nm : List Char) : String :=
  ⟨substNamePlaceholder nm template.data⟩

/-- Model of `CustomFormatter.format(record)` up to the point the final line format is
fixed: `FORMATS.get(record.levelno)` yields `None` for a non-standard level,
and the subsequent `log_fmt.format(...)` on `None` raises (modelled `none`). -/
def CustomFormatter_format (name_mode : String) (recordName : List Char)
    (levelno : Nat) : Option String :=
  let log_fmt := FORMATS.lookup levelno
  match CustomFormatter_get_name name_mode recordName with
  | none => none
  | some nm =>
    match log_fmt with
    | none => none
    | some f => some (pyFormatName f nm)

/-! ### Helper lemmas -/

theorem level_str_ne (s t : String) (c : Char) (ht : t.data.head? = some c)
    (hc : c ≠ 'L') : "Level " ++ s ≠ t := by
  intro he
  have h1 : ("Level " ++ s).data.head? = some 'L' := rfl
  rw [he, ht] at h1
  exact hc (Option.some.inj h1)

theorem nameToLevel_level_prefixed (s : String) :
    nameToLevel ("Level " ++ s) = none := by
  unfold nameToLevel
  rw [if_neg (level_str_ne s "CRITICAL" 'C' rfl (by decide)),
    if_neg (level_str_ne s "FATAL" 'F' rfl (by decide)),
    if_neg (level_str_ne s "ERROR" 'E' rfl (by decide)),
    if_neg (level_str_ne s "WARN" 'W' rfl (by decide)),
    if_neg (level_str_ne s "WARNING" 'W' rfl (by decide)),
    if_neg (level_str_ne s "INFO" 'I' rfl (by decide)),
    if_neg (level_str_ne s "DEBUG" 'D' rfl (by decide)),
    if_neg (level_str_ne s "NOTSET" 'N' rfl (by decide))]

theorem warn_level (st : LogState) (log msg : String) :
    (warn st log msg).level = st.level := by
  unfold warn; split <;> rfl

theorem warn_handlers (st : LogState) (log msg : String) :
    (warn st log msg).handlers = st.handlers := by
  unfold warn; split <;> rfl

theorem setLevelNat_level_self (st : LogState) (log : String) (n : Nat) :
    (setLevelNat st log n).level log = n := by
  simp [setLevelNat]

theorem ancestorsChain_head (name : String) :
    ∃ t, ancestorsChain name = name :: t := by
  unfold ancestorsChain
  by_cases h : name = ""
  · subst h; exact ⟨[], by simp⟩
  · exact ⟨properAncestors name ++ [""], by rw [if_neg h]⟩

theorem effectiveLevel_self (st : LogState) (name : String)
    (h : st.level name ≠ 0) : effectiveLevel st name = st.level name := by
  obtain ⟨t, ht⟩ := ancestorsChain_head name
  unfold effectiveLevel
  rw [ht, List.find?_cons_of_pos _ (by simpa using h)]

theorem warn_emits (st : LogState) (log msg : String)
    (h : effectiveLevel st log ≤ 30) :
    warn st log msg = { st with warnings := st.warnings ++ [(log, msg)] } := by
  unfold warn; rw [if_pos h]

/-- Master lemma on `set_log_level`: it never propagates an error, it never
touches the handler tables, and the final own level of `log` is the requested
level if recognized, else the environment default if recognized, else the
hardcoded system level. -/
theorem set_log_level_spec (dll : String) (st : LogState) (log s : String) :
    ∃ st1, set_log_level dll st log s = .ok st1 ∧
      st1.handlers = st.handlers ∧
      (some (st1.level log) = nameToLevel (pyUpper s) ∨
        (nameToLevel (pyUpper s) = none ∧ some (st1.level log) = nameToLevel dll) ∨
        (nameToLevel (pyUpper s) = none ∧ nameToLevel dll = none ∧
          st1.level log = SYSTEM_LOG_LEVEL)) := by
  unfold set_log_level
  cases h1 : nameToLevel (pyUpper s) with
  | some n =>
    refine ⟨setLevelNat st log n, ?_, rfl, .inl ?_⟩
    · simp [getLevelName, h1, pySetLevel, checkLevel]
    · simp [setLevelNat, h1]
  | none =>
    have hget : getLevelName (pyUpper s) = .str ("Level " ++ pyUpper s) := by
      simp [getLevelName, h1]
    have hchk : pySetLevel st log (getLevelName (pyUpper s)) = .error () := by
      simp [hget, pySetLevel, checkLevel, nameToLevel_level_prefixed]
    cases h2 : nameToLevel dll with
    | some m =>
      have hdef : set_default_log_level dll st log = .ok (setLevelNat st log m) := by
        simp [set_default_log_level, h2, pySetLevel, checkLevel, getLevelName]
      simp only [hchk, hdef]
      refine ⟨_, rfl, ?_, .inr (.inl ⟨trivial, ?_⟩)⟩
      · rw [warn_handlers]; rfl
      · rw [warn_level, setLevelNat_level_self]
    | none =>
      have hdef : set_default_log_level dll st log =
          .ok (warn (set_system_log_level st log) log
            ("Unknown log level \"" ++ dll ++ "\"")) := by
        simp [set_default_log_level, h2]
      simp only [hchk, hdef]
      refine ⟨_, rfl, ?_, .inr (.inr ⟨trivial, trivial, ?_⟩)⟩
      · rw [warn_handlers, warn_handlers]; rfl
      · rw [warn_level, warn_level]
        exact setLevelNat_level_self st log SYSTEM_LOG_LEVEL

/-! ### Claim theorems -/

/-- C1 (counterexample): the claim says the package-only branch of
`_get_main_module_name` is dead for exactly one of the two sentinel stems,
i.e. for one of `__init__`/`__main__` the function returns just the package.
In fact, for a module with package `"pkg"` and file stem `__init__`
(resp. `__main__`) the function returns the joined form, not the package, in
BOTH cases: the branch is dead for both sentinels. -/
theorem C1_counterexample :
    _get_main_module_name (some "pkg") (some "/x/__init__.py") "" = "pkg.__init__" ∧
    _get_main_module_name (some "pkg") (some "/x/__main__.py") "" = "pkg.__main__" ∧
    "pkg.__init__" ≠ "pkg" ∧ "pkg.__main__" ≠ "pkg" :=
  ⟨rfl, rfl, by decide, by decide⟩

/-- C1 (amended): the stem is compared with the *tuple*
`("__init__", "__main__")` using `==`, which is false for every string, so
whenever the module has a file path `_get_main_module_name` takes the join
branch — the package-only return after the comparison is dead for both
sentinel stems. -/
theorem C1_branch_dead_for_both (package0 : Option String) (f pre : String) :
    _get_main_module_name package0 (some f) pre =
      pyStripDotsSlashes (slashesToDots
        (posixJoin3 pre (package0.getD "") (stripPyExt (pyBasename f)))) := rfl

/-- C2 (counterexample): with requested level `"verbose"` and environment
default `"TRACE"` (both unrecognized), `set_log_level` leaves the handle at
WARNING (30) but emits TWO degradation warning records, not exactly one. -/
theorem C2_counterexample :
    (set_log_level "TRACE" initState "app" "verbose").map
      (fun st1 => (st1.level "app", st1.warnings.length)) = Except.ok (30, 2) ∧
    (2 : Nat) ≠ 1 :=
  ⟨rfl, by decide⟩

/-- C2 (amended): for every requested string unrecognized by the level-name
table, when the environment default is also unrecognized, `set_log_level`
leaves the handle at the system fallback severity WARNING and emits exactly
TWO degradation warning records, in order: one for the unrecognized default
(from `set_default_log_level`) and one for the unrecognized request. -/
theorem C2_two_warnings (dll : String) (st : LogState) (log s : String)
    (h1 : nameToLevel (pyUpper s) = none) (h2 : nameToLevel dll = none) :
    ∃ st1, set_log_level dll st log s = .ok st1 ∧
      st1.level log = SYSTEM_LOG_LEVEL ∧
      st1.warnings = st.warnings ++
        [(log, "Unknown log level \"" ++ dll ++ "\""),
         (log, "Unknown log level \"" ++ pyUpper s ++ "\"")] := by
  have hget : getLevelName (pyUpper s) = .str ("Level " ++ pyUpper s) := by
    simp [getLevelName, h1]
  have hchk : pySetLevel st log (getLevelName (pyUpper s)) = .error () := by
    simp [hget, pySetLevel, checkLevel, nameToLevel_level_prefixed]
  have hdef : set_default_log_level dll st log =
      .ok (warn (set_system_log_level st log) log
        ("Unknown log level \"" ++ dll ++ "\"")) := by
    simp [set_default_log_level, h2]
  unfold set_log_level
  simp only [hchk, hdef]
  have hl : (set_system_log_level st log).level log = SYSTEM_LOG_LEVEL :=
    setLevelNat_level_self st log SYSTEM_LOG_LEVEL
  have he1 : effectiveLevel (set_system_log_level st log) log ≤ 30 := by
    rw [effectiveLevel_self _ _ (by rw [hl]; decide), hl]; decide
  have he2 : effectiveLevel { set_system_log_level st log with
      warnings := (set_system_log_level st log).warnings ++
        [(log, "Unknown log level \"" ++ dll ++ "\"")] } log ≤ 30 := he1
  refine ⟨_, rfl, ?_, ?_⟩
  · rw [warn_level, warn_level]; exact hl
  · rw [warn_emits _ _ _ he1, warn_emits _ _ _ he2]
    simp [set_system_log_level, setLevelNat]

/-- C2 (witness): the amended theorem applied at the concrete inputs of the
counterexample. -/
theorem C2_witness :
    nameToLevel (pyUpper "verbose") = none ∧ nameToLevel "TRACE" = none ∧
    ∃ st1, set_log_level "TRACE" initState "app" "verbose" = .ok st1 ∧
      st1.level "app" = SYSTEM_LOG_LEVEL ∧
      st1.warnings = initState.warnings ++
        [("app", "Unknown log level \"" ++ "TRACE" ++ "\""),
         ("app", "Unknown log level \"" ++ pyUpper "verbose" ++ "\"")] :=
  ⟨by decide, by decide,
    C2_two_warnings "TRACE" initState "app" "verbose" (by decide) (by decide)⟩

/-- C4: for every valid Severity name supplied in any letter case,
`set_log_level` succeeds and sets both the handle's own level and its
effective severity to exactly the Severity named by the uppercased string. -/
theorem C4_valid_severity (dll : String) (st : LogState) (log s : String)
    (h : pyUpper s ∈ ["DEBUG", "INFO", "WARNING", "ERROR", "CRITICAL"]) :
    ∃ st1, set_log_level dll st log s = .ok st1 ∧
      some (st1.level log) = nameToLevel (pyUpper s) ∧
      some (effectiveLevel st1 log) = nameToLevel (pyUpper s) := by
  have hn : ∃ n, nameToLevel (pyUpper s) = some n ∧ n ≠ 0 := by
    simp only [List.mem_cons, List.not_mem_nil, or_false] at h
    rcases h with h | h | h | h | h <;> rw [h] <;> exact ⟨_, rfl, by decide⟩
  obtain ⟨n, hn, hnz⟩ := hn
  refine ⟨setLevelNat st log n, ?_, ?_, ?_⟩
  · simp [set_log_level, getLevelName, hn, pySetLevel, checkLevel]
  · rw [setLevelNat_level_self, hn]
  · rw [effectiveLevel_self _ _ (by rw [setLevelNat_level_self]; exact hnz),
      setLevelNat_level_self, hn]

/-- C4 (witness): the theorem applied at the mixed-case name `"Info"`. -/
theorem C4_witness :
    pyUpper "Info" ∈ ["DEBUG", "INFO", "WARNING", "ERROR", "CRITICAL"] ∧
    ∃ st1, set_log_level "INFO" initState "app" "Info" = .ok st1 ∧
      some (st1.level "app") = nameToLevel (pyUpper "Info") ∧
      some (effectiveLevel st1 "app") = nameToLevel (pyUpper "Info") :=
  ⟨by decide, C4_valid_severity "INFO" initState "app" "Info" (by decide)⟩

/-- C5: for every input string whatsoever, `set_log_level` never propagates an
error, and the handle ends at a level drawn from the fallback chain:
the requested severity if its name is recognized, else the environment
default severity if recognized, else the hardcoded system level WARNING. -/
theorem C5_never_raises (dll : String) (st : LogState) (log s : String) :
    ∃ st1, set_log_level dll st log s = .ok st1 ∧
      (some (st1.level log) = nameToLevel (pyUpper s) ∨
        some (st1.level log) = nameToLevel dll ∨
        st1.level log = SYSTEM_LOG_LEVEL) := by
  obtain ⟨st1, hok, _, hlvl⟩ := set_log_level_spec dll st log s
  exact ⟨st1, hok, by tauto⟩

theorem init_root_logger_handlers_root (st : LogState) (root lp nm : String) :
    (init_root_logger st root lp nm).handlers root ≠ [] := by
  unfold init_root_logger addHandler get_console_handler get_file_handler setLevelNat
  by_cases h : lp = "" <;> simp [h]

theorem hasHandlers_of_mem (st : LogState) (name n : String)
    (hn : n ∈ ancestorsChain name) (h : st.handlers n ≠ []) :
    hasHandlers st name = true := by
  unfold hasHandlers
  rw [List.any_eq_true]
  exact ⟨n, hn, by simpa using h⟩

theorem hasHandlers_congr (st1 st2 : LogState)
    (h : st1.handlers = st2.handlers) (name : String) :
    hasHandlers st1 name = hasHandlers st2 name := by
  unfold hasHandlers; rw [h]

theorem get_logger_eq (env : String → Option String) (dll : String)
    (st : LogState) (name lvl_str : String) (lvl_env : Option String)
    (root logpath namemode : String) :
    get_logger env dll st name lvl_str lvl_env root logpath namemode =
      set_log_level dll
        (if hasHandlers st name then st
         else init_root_logger st root logpath namemode)
        name
        (match lvl_env with
         | some v => if v = "" then lvl_str else (env v).getD dll
         | none => lvl_str) := rfl

/-- C3 (counterexample): two `get_logger` calls with the same root name
`"app"` but a queried name `"other"` that is not beneath that root: the
second call re-initializes, so the root's sink count grows from 1 to 2 —
attachment is NOT exactly once for every pair of calls with the same root
name, because the guard checks the queried logger's chain, not the root. -/
theorem C3_counterexample :
    ((get_logger (fun _ => none) "INFO" initState "other" "INFO" none
        "app" "" "leaf").bind
      (fun st1 =>
        (get_logger (fun _ => none) "INFO" st1 "other" "INFO" none
            "app" "" "leaf").map
          (fun st2 => ((st1.handlers "app").length, (st2.handlers "app").length)))) =
      Except.ok (1, 2) ∧ (2 : Nat) ≠ 1 :=
  ⟨rfl, by decide⟩

/-- C3 (amended): for every pair of `get_logger` calls with the same
arguments whose root name lies on the queried logger's hierarchy chain (in
particular for the default root `""`, which is on every chain), both calls
succeed and the second call attaches nothing: the handler tables after the
second call equal those after the first.  The initialization guard is the
`hasHandlers` check on the queried logger's chain. -/
theorem C3_idempotent_on_chain (env : String → Option String) (dll : String)
    (st : LogState) (name lvl_str : String) (lvl_env : Option String)
    (root logpath namemode : String)
    (hroot : root ∈ ancestorsChain name) :
    ∃ st1 st2,
      get_logger env dll st name lvl_str lvl_env root logpath namemode = .ok st1 ∧
      get_logger env dll st1 name lvl_str lvl_env root logpath namemode = .ok st2 ∧
      st2.handlers = st1.handlers := by
  simp only [get_logger_eq]
  generalize (match lvl_env with
    | some v => if v = "" then lvl_str else (env v).getD dll
    | none => lvl_str) = lvl2
  by_cases hh : hasHandlers st name = true
  · obtain ⟨st1, hok1, hh1, _⟩ := set_log_level_spec dll st name lvl2
    obtain ⟨st2, hok2, hh2, _⟩ := set_log_level_spec dll st1 name lvl2
    have hh' : hasHandlers st1 name = true := by
      rw [hasHandlers_congr st1 st hh1]; exact hh
    exact ⟨st1, st2, by rw [if_pos hh]; exact hok1,
      by rw [if_pos hh']; exact hok2, hh2⟩
  · obtain ⟨st1, hok1, hh1, _⟩ :=
      set_log_level_spec dll (init_root_logger st root logpath namemode) name lvl2
    obtain ⟨st2, hok2, hh2, _⟩ := set_log_level_spec dll st1 name lvl2
    have h1root : st1.handlers root ≠ [] := by
      rw [hh1]; exact init_root_logger_handlers_root st root logpath namemode
    have hh' : hasHandlers st1 name = true := hasHandlers_of_mem st1 name root hroot h1root
    exact ⟨st1, st2, by rw [if_neg hh]; exact hok1,
      by rw [if_pos hh']; exact hok2, hh2⟩

/-- C3 (witness): the amended theorem applied with root `"app"` and queried
name `"app.mod"`, which lies beneath it. -/
theorem C3_witness :
    "app" ∈ ancestorsChain "app.mod" ∧
    ∃ st1 st2,
      get_logger (fun _ => none) "INFO" initState "app.mod" "INFO" none
        "app" "" "leaf" = .ok st1 ∧
      get_logger (fun _ => none) "INFO" st1 "app.mod" "INFO" none
        "app" "" "leaf" = .ok st2 ∧
      st2.handlers = st1.handlers :=
  ⟨by decide, C3_idempotent_on_chain (fun _ => none) "INFO" initState
    "app.mod" "INFO" none "app" "" "leaf" (by decide)⟩

/-- C7: `init_root_logger` sets the root's own level to DEBUG (10), attaches
one console sink, and appends a midnight-rotating file sink with 30 backups
and date suffix `"%Y%m%d"` exactly when `logPath` is non-empty; with an empty
`logPath` only the console sink is attached. -/
theorem C7_init_root_logger (st : LogState) (root lp nm : String) :
    (init_root_logger st root lp nm).level root = 10 ∧
    (init_root_logger st root lp nm).handlers root =
      st.handlers root ++ [Handler.console nm] ++
        (if lp = "" then []
         else [Handler.timedRotatingFile lp "midnight" 30 "%Y%m%d" nm]) := by
  unfold init_root_logger addHandler setLevelNat get_console_handler get_file_handler
  by_cases h : lp = "" <;> simp [h]

/-- C8: when the calling unit has no discoverable identity (no module can be
resolved from the caller's frame), `get_module_name` returns the prefix
unchanged; being a total function of the resolved module, it raises nothing. -/
theorem C8_no_identity (pre : String) : get_module_name none pre = pre := rfl

theorem pyMapHead_of_ne_nil (ls : List (List Char)) (h : ∀ l ∈ ls, l ≠ []) :
    pyMapHead ls = some (ls.map (fun l => l.take 1)) := by
  induction ls with
  | nil => rfl
  | cons a t ih =>
    cases a with
    | nil => exact absurd rfl (h [] (List.mem_cons_self _ _))
    | cons c cs =>
      simp [pyMapHead, pyHeadChar, ih (fun l hl => h l (List.mem_cons_of_mem _ hl))]

/-- C6: on any dotted name assembled from non-empty dot-free segments,
`CustomFormatter._get_name` returns the last segment under mode `"leaf"`, the
whole name under `"full"`, and every segment but the last abbreviated to its
first character under `"short"`. -/
theorem C6_name_modes (segs : List (List Char)) (hne : segs ≠ [])
    (hseg : ∀ l ∈ segs, l ≠ [] ∧ ('.' : Char) ∉ l) :
    CustomFormatter_get_name "leaf" (List.intercalate ['.'] segs) =
      some (segs.getLastD []) ∧
    CustomFormatter_get_name "full" (List.intercalate ['.'] segs) =
      some (List.intercalate ['.'] segs) ∧
    CustomFormatter_get_name "short" (List.intercalate ['.'] segs) =
      some (List.intercalate ['.']
        ((segs.dropLast.map (fun l => l.take 1)) ++ [segs.getLastD []])) := by
  have hx : ∀ l ∈ segs, ('.' : Char) ∉ l := fun l hl => (hseg l hl).2
  have hsplit : (List.intercalate ['.'] segs).splitOn '.' = segs :=
    List.splitOn_intercalate _ '.' hx hne
  have hmm := pyMapHead_of_ne_nil segs.dropLast
    (fun l hl => (hseg l (List.mem_of_mem_dropLast hl)).1)
  refine ⟨?_, ?_, ?_⟩
  · unfold CustomFormatter_get_name
    rw [if_pos rfl, hsplit]
  · unfold CustomFormatter_get_name
    rw [if_neg (by decide), if_pos rfl]
  · unfold CustomFormatter_get_name
    rw [if_neg (by decide), if_neg (by decide), if_pos rfl]
    simp only [hsplit, hmm]

/-- C6 (witness): the theorem applied to `"alpha.beta.gamma"`, yielding
`"gamma"`, `"alpha.beta.gamma"` and `"a.b.gamma"`. -/
theorem C6_witness :
    CustomFormatter_get_name "leaf" "alpha.beta.gamma".data = some "gamma".data ∧
    CustomFormatter_get_name "full" "alpha.beta.gamma".data =
      some "alpha.beta.gamma".data ∧
    CustomFormatter_get_name "short" "alpha.beta.gamma".data =
      some "a.b.gamma".data := by
  obtain ⟨h1, h2, h3⟩ := C6_name_modes ["alpha".data, "beta".data, "gamma".data]
    (by decide) (by decide)
  exact ⟨h1, h2, h3⟩

/-- C9: a formatter whose name mode is none of `"leaf"`, `"full"`, `"short"`
falls to the final branch of `_get_name` and renders the full dotted record
name unchanged; the constructor default mode (when no `namemode` keyword is
supplied) is `"file"`, which is such a value. -/
theorem C9_unrecognized_mode (mode : String) (recordName : List Char)
    (h1 : mode ≠ "leaf") (h2 : mode ≠ "full") (h3 : mode ≠ "short") :
    CustomFormatter_get_name mode recordName = some recordName ∧
    CustomFormatter_initNameMode none = "file" := by
  unfold CustomFormatter_get_name
  rw [if_neg h1, if_neg h2, if_neg h3]
  exact ⟨rfl, rfl⟩

/-- C9 (witness): the theorem applied at the default mode `"file"`. -/
theorem C9_witness :
    CustomFormatter_get_name "file" "alpha.beta".data = some "alpha.beta".data ∧
    CustomFormatter_initNameMode none = "file" :=
  C9_unrecognized_mode "file" "alpha.beta".data (by decide) (by decide) (by decide)

/-- C10: the template lookup in `CustomFormatter.format` is partial — for a
record whose display name resolves, formatting succeeds exactly when the
numeric level is one of the five standard severities; for any other level
the dictionary lookup yields nothing and the substitution step fails. -/
theorem C10_format_partial (mode : String) (rn nm : List Char) (levelno : Nat)
    (hname : CustomFormatter_get_name mode rn = some nm) :
    ((levelno = 10 ∨ levelno = 20 ∨ levelno = 30 ∨ levelno = 40 ∨ levelno = 50) ↔
      (CustomFormatter_format mode rn levelno).isSome = true) := by
  unfold CustomFormatter_format
  simp only [hname]
  constructor
  · rintro (h | h | h | h | h) <;> subst h <;> rfl
  · intro h
    by_contra hno
    push_neg at hno
    obtain ⟨n1, n2, n3, n4, n5⟩ := hno
    have b1 : (levelno == 10) = false := by simpa using n1
    have b2 : (levelno == 20) = false := by simpa using n2
    have b3 : (levelno == 30) = false := by simpa using n3
    have b4 : (levelno == 40) = false := by simpa using n4
    have b5 : (levelno == 50) = false := by simpa using n5
    have hlk : FORMATS.lookup levelno = none := by
      simp [FORMATS, List.lookup, b1, b2, b3, b4, b5]
    rw [hlk] at h
    simp at h

/-- C10 (witness): the theorem applied at the non-standard level 15, where the
lookup fails and `format` has no template to substitute into. -/
theorem C10_witness :
    CustomFormatter_get_name "leaf" "a".data = some "a".data ∧
    (((15 : Nat) = 10 ∨ (15 : Nat) = 20 ∨ (15 : Nat) = 30 ∨ (15 : Nat) = 40 ∨
        (15 : Nat) = 50) ↔
      (CustomFormatter_format "leaf" "a".data 15).isSome = true) :=
  ⟨by decide, C10_format_partial "leaf" "a".data "a".data 15 (by decide)⟩

end LogTemplate
